import Mathlib

/-!
Shallow embedding of the VAE core of the pylearn2 fork
(src/pylearn2/models/vae/__init__.py, src/pylearn2/models/vae/kl.py,
src/pylearn2/models/vae/prior.py, src/pylearn2/costs/vae.py).

Tensors are modelled as functions out of Fin-indexed shapes into the reals;
the Theano symbolic operations used by the code (elementwise arithmetic,
max/sum/mean along an axis, reshape, dimshuffle, log, exp) are modelled by
the corresponding exact real operations.  The external collaborator objects
(the Visible and Latent instances, which live in modules not part of this
repository snapshot) are abstracted as structures of functions; the VAE
methods are translated line by line against those abstract collaborators.
-/

namespace PylearnVAE

/-- A rank-1 tensor of shape (a). -/
abbrev Tensor1 (a : ℕ) := Fin a → ℝ

/-- A rank-2 tensor of shape (a, b). -/
abbrev Tensor2 (a b : ℕ) := Fin a → Fin b → ℝ

/-- A rank-3 tensor of shape (a, b, c). -/
abbrev Tensor3 (a b c : ℕ) := Fin a → Fin b → Fin c → ℝ

/-- Theano T.max over the (single) reduced axis of a rank-1 slice.  On an
empty axis Theano errors; we return the junk value 0 there, and theorems
that need a nonempty axis carry the hypothesis 0 < m. -/
noncomputable def tensor_max {m : ℕ} (A : Tensor1 m) : ℝ :=
  if h : 0 < m then Finset.univ.sup' ⟨⟨0, h⟩, Finset.mem_univ _⟩ A else 0

/-- log_sum_exp from src/pylearn2/models/vae/__init__.py lines 36-40,
applied to one slice along the reduced axis:
A_max = T.max(A, axis, keepdims=True);
B = T.log(T.sum(T.exp(A - A_max), axis, keepdims=True)) + A_max;
return B.sum(axis)  (the final sum only collapses the kept singleton axis). -/
noncomputable def log_sum_exp {m : ℕ} (A : Tensor1 m) : ℝ :=
  Real.log (∑ s, Real.exp (A s - tensor_max A)) + tensor_max A

/-- Theano reshape of a (ns, batch, nhid) tensor to (ns*batch, nhid), as in
z.reshape((epsilon.shape[0] * epsilon.shape[1], epsilon.shape[2])) at
src/pylearn2/models/vae/__init__.py lines 255 and 294-295 (row-major order). -/
def flatten3 {a b c : ℕ} (A : Tensor3 a b c) : Tensor2 (a * b) c :=
  fun k i =>
    A ⟨(k : ℕ) / b, Nat.div_lt_of_lt_mul (Nat.mul_comm a b ▸ k.isLt)⟩
      ⟨(k : ℕ) % b, Nat.mod_lt _ (by
        rcases Nat.eq_zero_or_pos b with h | h
        · exact absurd k.isLt (by simp [h])
        · exact h)⟩ i

/-- Theano reshape of a (ns*batch, d) tensor back to (ns, batch, d), as in
theta_i.reshape((epsilon.shape[0], epsilon.shape[1], theta_i.shape[1])) at
src/pylearn2/models/vae/__init__.py lines 257-261 and 297-301. -/
def reshape23 {a b c : ℕ} (A : Tensor2 (a * b) c) : Tensor3 a b c :=
  fun s t i =>
    A ⟨(s : ℕ) * b + (t : ℕ), by
      have h1 : (s : ℕ) * b + (t : ℕ) < ((s : ℕ) + 1) * b := by
        rw [Nat.succ_mul]
        exact Nat.add_lt_add_left t.isLt _
      exact lt_of_lt_of_le h1 (Nat.mul_le_mul_right _ s.isLt)⟩ i

/-- Theano X.dimshuffle('x', 0, 1): broadcast a (batch, nvis) matrix to a
(1, batch, nvis) tensor. -/
def dimshuffle_x01 {b v : ℕ} (X : Tensor2 b v) : Tensor3 1 b v :=
  fun _ i j => X i j

/-- The external collaborators of VAE (instances of Visible and Latent, whose
modules are not part of this repository snapshot), abstracted as the functions
that VAE.log_likelihood_lower_bound and VAE.log_likelihood_approximation call
on them.  sample_from_epsilon is the concrete noise tensor the Latent object
returns for the requested shape (num_samples, batch, nhid).  The tuple theta of
decoder outputs is modelled as one ntheta-wide tensor standing for the
concatenation of the tuple components, which all undergo the same reshape. -/
structure VAEColl (ns batch nvis nhid ntheta : ℕ) (Phi : Type) where
  sample_from_epsilon : Tensor3 ns batch nhid
  encode_phi : Tensor2 batch nvis → Phi
  sample_from_q_z_given_x : Tensor3 ns batch nhid → Phi → Tensor3 ns batch nhid
  kl_divergence_term : Phi → Tensor1 batch
  decode_theta : Tensor2 (ns * batch) nhid → Tensor2 (ns * batch) ntheta
  expectation_term : Tensor3 1 batch nvis → Tensor3 ns batch ntheta → Tensor3 ns batch nvis
  log_q_z_given_x : Tensor3 ns batch nhid → Phi → Tensor2 ns batch
  log_p_z : Tensor3 ns batch nhid → Tensor2 ns batch
  log_p_x_given_z : Tensor3 1 batch nvis → Tensor3 ns batch ntheta → Tensor2 ns batch

/-- VAE.log_likelihood_lower_bound, src/pylearn2/models/vae/__init__.py lines
227-267, translated line by line.  The Theano expression
expectation_term(...).mean(axis=0).sum(axis=1) becomes, per example b,
the sum over visible units of the average over the sample axis.  The method
returns -kl_divergence_term + expectation_term per example. -/
noncomputable def log_likelihood_lower_bound {ns batch nvis nhid ntheta : ℕ}
    {Phi : Type} (M : VAEColl ns batch nvis nhid ntheta Phi)
    (X : Tensor2 batch nvis) : Tensor1 batch :=
  let epsilon := M.sample_from_epsilon
  let phi := M.encode_phi X
  let z := M.sample_from_q_z_given_x epsilon phi
  let kl := M.kl_divergence_term phi
  let z2 := flatten3 z
  let theta := M.decode_theta z2
  let theta3 := reshape23 theta
  let expectation := fun b =>
    ∑ i, (∑ s, M.expectation_term (dimshuffle_x01 X) theta3 s b i) / (ns : ℝ)
  fun b => -kl b + expectation b

/-- VAE.log_likelihood_approximation, src/pylearn2/models/vae/__init__.py
lines 269-313, translated line by line: importance sampling estimator
log_sum_exp(log_p_z + log_p_x_z - log_q_z_x, axis=0) - T.log(num_samples). -/
noncomputable def log_likelihood_approximation {ns batch nvis nhid ntheta : ℕ}
    {Phi : Type} (M : VAEColl ns batch nvis nhid ntheta Phi)
    (X : Tensor2 batch nvis) : Tensor1 batch :=
  let epsilon := M.sample_from_epsilon
  let phi := M.encode_phi X
  let z := M.sample_from_q_z_given_x epsilon phi
  let flat_z := flatten3 z
  let theta := M.decode_theta flat_z
  let theta3 := reshape23 theta
  let log_q_z_x := M.log_q_z_given_x z phi
  let log_p_z := M.log_p_z z
  let log_p_x_z := M.log_p_x_given_z (dimshuffle_x01 X) theta3
  fun b =>
    log_sum_exp (fun s => log_p_z s b + log_p_x_z s b - log_q_z_x s b) -
      Real.log (ns : ℝ)

/-- The posterior parameters phi computed by the two methods above. -/
def vae_phi {ns batch nvis nhid ntheta : ℕ} {Phi : Type}
    (M : VAEColl ns batch nvis nhid ntheta Phi) (X : Tensor2 batch nvis) :
    Phi :=
  M.encode_phi X

/-- The latent samples z computed by the two methods above. -/
def vae_z {ns batch nvis nhid ntheta : ℕ} {Phi : Type}
    (M : VAEColl ns batch nvis nhid ntheta Phi) (X : Tensor2 batch nvis) :
    Tensor3 ns batch nhid :=
  M.sample_from_q_z_given_x M.sample_from_epsilon (vae_phi M X)

/-- The reshaped decoder parameters theta computed by the two methods above. -/
def vae_theta {ns batch nvis nhid ntheta : ℕ} {Phi : Type}
    (M : VAEColl ns batch nvis nhid ntheta Phi) (X : Tensor2 batch nvis) :
    Tensor3 ns batch ntheta :=
  reshape23 (M.decode_theta (flatten3 (vae_z M X)))

/-- The analytic KL component of the lower bound: kl_divergence_term(phi). -/
noncomputable def vae_kl_component {ns batch nvis nhid ntheta : ℕ} {Phi : Type}
    (M : VAEColl ns batch nvis nhid ntheta Phi) (X : Tensor2 batch nvis) :
    Tensor1 batch :=
  M.kl_divergence_term (vae_phi M X)

/-- The expectation component of the lower bound: the per-sample
reconstruction log-likelihood averaged over the sample axis (mean(axis=0))
and summed over the visible axis (sum(axis=1)). -/
noncomputable def vae_expectation_component {ns batch nvis nhid ntheta : ℕ}
    {Phi : Type} (M : VAEColl ns batch nvis nhid ntheta Phi)
    (X : Tensor2 batch nvis) : Tensor1 batch :=
  fun b =>
    ∑ i, (∑ s, M.expectation_term (dimshuffle_x01 X) (vae_theta M X) s b i) /
      (ns : ℝ)

/-- The per-sample importance weights log_p_z + log_p_x_z - log_q_z_x of
log_likelihood_approximation. -/
noncomputable def vae_log_w {ns batch nvis nhid ntheta : ℕ} {Phi : Type}
    (M : VAEColl ns batch nvis nhid ntheta Phi) (X : Tensor2 batch nvis) :
    Tensor2 ns batch :=
  fun s b =>
    M.log_p_z (vae_z M X) s b +
      M.log_p_x_given_z (dimshuffle_x01 X) (vae_theta M X) s b -
      M.log_q_z_given_x (vae_z M X) (vae_phi M X) s b

/-- The mean over a batch axis, Theano .mean() on a (batch,) tensor. -/
noncomputable def tmean {b : ℕ} (f : Tensor1 b) : ℝ := (∑ i, f i) / (b : ℝ)

/-- The parameters (besides self) accepted by VAE.log_likelihood_lower_bound,
read off its def line at src/pylearn2/models/vae/__init__.py line 227:
def log_likelihood_lower_bound(self, X, num_samples). -/
def log_likelihood_lower_bound_kwparams : List String := ["X", "num_samples"]

/-- Python call semantics for keyword arguments: passing a keyword whose name
is not among the parameters of the callee raises a TypeError naming the
unexpected keyword. -/
def py_check_kwargs (fname : String) (params kwargs : List String) :
    Except String Unit :=
  match kwargs.find? (fun k => !params.contains k) with
  | some k =>
      .error ("TypeError: " ++ fname ++
        "() got an unexpected keyword argument " ++ k)
  | none => .ok ()

/-- VAECriterion.get_monitoring_channels, src/pylearn2/costs/vae.py lines
37-45.  It evaluates
kl, expectation_term = model.log_likelihood_lower_bound(data, self.num_samples, separate=True),
i.e. it calls VAE.log_likelihood_lower_bound with the extra keyword argument
separate; the callee accepts only (X, num_samples).  Were the keyword
accepted, the channels would be the batch means of the KL component and of the
expectation component of the lower bound. -/
noncomputable def VAECriterion_get_monitoring_channels {ns batch nvis nhid
    ntheta : ℕ} {Phi : Type} (M : VAEColl ns batch nvis nhid ntheta Phi)
    (X : Tensor2 batch nvis) : Except String (ℝ × ℝ) :=
  match py_check_kwargs "log_likelihood_lower_bound"
      log_likelihood_lower_bound_kwparams ["separate"] with
  | .error e => .error e
  | .ok _ => .ok (tmean (vae_kl_component M X),
      tmean (vae_expectation_component M X))

/-- A Python class, identified by its name together with the names of all
classes in its method resolution order (itself included), which is what
isinstance consults. -/
structure PyClass where
  name : String
  mro : List String
deriving Repr, DecidableEq

/-- A Python object, abstracted to its class (the only attribute the
validation code in src/pylearn2/models/vae/kl.py inspects). -/
structure PyObj where
  cls : PyClass
deriving Repr, DecidableEq

/-- Python isinstance(obj, c): whether c appears in the method resolution
order of the class of obj. -/
def py_isinstance (obj : PyObj) (c : PyClass) : Bool :=
  obj.cls.mro.contains c.name

/-- The string form str(c) of a class object (the quotes Python prints around
the class name are immaterial to the claims and omitted). -/
def py_str_class (c : PyClass) : String :=
  "<class " ++ c.name ++ ">"

/-- The metaclass type: in Python every class object is itself an instance of
type, so for any class C, C.__class__ is type. -/
def py_type_class : PyClass :=
  { name := "type", mro := ["type", "object"] }

/-- Python C.__class__ for a class object C: the metaclass type. -/
def py_class_of_class (_ : PyClass) : PyClass := py_type_class

/-- The class DiagonalGaussianPrior of src/pylearn2/models/vae/prior.py
(subclass of Prior, which subclasses Model). -/
def DiagonalGaussianPrior_class : PyClass :=
  { name := "DiagonalGaussianPrior"
    mro := ["DiagonalGaussianPrior", "Prior", "Model", "object"] }

/-- The class DiagonalGaussianPosterior of pylearn2.models.vae.posterior
(imported by src/pylearn2/models/vae/kl.py; subclass of Posterior). -/
def DiagonalGaussianPosterior_class : PyClass :=
  { name := "DiagonalGaussianPosterior"
    mro := ["DiagonalGaussianPosterior", "Posterior", "Model", "object"] }

/-- KLIntegrator._validate_prior_posterior, src/pylearn2/models/vae/kl.py
lines 57-80, translated line by line.  Note that both error messages render
str(self.prior_class.__class__) (the metaclass) where the expected class was
presumably intended, and that the posterior branch also consults
self.prior_class rather than self.posterior_class for that rendering. -/
def KLIntegrator_validate_prior_posterior (cls_name : String)
    (prior_class posterior_class : Option PyClass) (pr po : PyObj) :
    Except String Unit :=
  match prior_class, posterior_class with
  | some pc, some qc =>
      if !py_isinstance pr pc then
        .error ("prior class " ++ py_str_class pr.cls ++
          " is incompatible with expected prior class " ++
          py_str_class (py_class_of_class pc))
      else if !py_isinstance po qc then
        .error ("posterior class " ++ py_str_class po.cls ++
          " is incompatible with expected posterior class " ++
          py_str_class (py_class_of_class pc))
      else .ok ()
  | _, _ =>
      .error ("NotImplementedError: " ++ cls_name ++ " has not set " ++
        "the required prior_class and posterior_class class attributes")

/-- DiagonalGaussianPriorPosteriorKL.per_component_kl_divergence,
src/pylearn2/models/vae/kl.py lines 100-110: after validating the
prior/posterior pair, with (posterior_mu, posterior_log_sigma) = phi and
(prior_mu, prior_log_sigma) = theta (the prior parameters are rank-1 and
broadcast across the batch), returns
prior_log_sigma - posterior_log_sigma +
0.5 * (exp(2*posterior_log_sigma) + (posterior_mu - prior_mu)**2) /
exp(2*prior_log_sigma) - 0.5, elementwise. -/
noncomputable def per_component_kl_divergence {batch d : ℕ}
    (phi : Tensor2 batch d × Tensor2 batch d)
    (theta : Tensor1 d × Tensor1 d) (pr po : PyObj) :
    Except String (Tensor2 batch d) :=
  match KLIntegrator_validate_prior_posterior "DiagonalGaussianPriorPosteriorKL"
      (some DiagonalGaussianPrior_class) (some DiagonalGaussianPosterior_class)
      pr po with
  | .error e => .error e
  | .ok _ =>
      .ok (fun b i =>
        theta.2 i - phi.2 b i +
          0.5 * (Real.exp (2 * phi.2 b i) + (phi.1 b i - theta.1 i) ^ 2) /
            Real.exp (2 * theta.2 i) - 0.5)

/-- DiagonalGaussianPriorPosteriorKL.kl_divergence, src/pylearn2/models/vae/kl.py
lines 91-98: the per-component KL summed over the latent axis (sum(axis=1)). -/
noncomputable def kl_divergence {batch d : ℕ}
    (phi : Tensor2 batch d × Tensor2 batch d)
    (theta : Tensor1 d × Tensor1 d) (pr po : PyObj) :
    Except String (Tensor1 batch) :=
  match per_component_kl_divergence phi theta pr po with
  | .error e => .error e
  | .ok pc => .ok (fun b => ∑ i, pc b i)

/-- Whether the character list n occurs as a prefix of h, by characters. -/
def chars_match : List Char → List Char → Bool
  | [], _ => true
  | _ :: _, [] => false
  | a :: as, b :: bs => a == b && chars_match as bs

/-- Whether the character list n occurs contiguously somewhere inside h. -/
def occurs_in (n : List Char) : List Char → Bool
  | [] => chars_match n []
  | c :: t => chars_match n (c :: t) || occurs_in n t

/-- Whether the string needle occurs as a contiguous substring of hay (used to
state that an error message names a class). -/
def str_occurs (needle hay : String) : Bool :=
  occurs_in needle.data hay.data

/-- An incompatible object passed as the prior argument: an instance of
DiagonalGaussianPosterior. -/
def c6_prior_obj : PyObj := ⟨DiagonalGaussianPosterior_class⟩

/-- A compatible posterior argument: an instance of
DiagonalGaussianPosterior. -/
def c6_posterior_obj : PyObj := ⟨DiagonalGaussianPosterior_class⟩

/-- The message produced by the validation failure for c6_prior_obj. -/
def c6_message : String :=
  "prior class <class DiagonalGaussianPosterior> is incompatible " ++
    "with expected prior class <class type>"

/-- The return value of VAE.sample and VAE.reconstruct: either the samples
alone, or the pair (samples, conditional sample means). -/
inductive SampleReturn (α β : Type) where
  | single (x : α) : SampleReturn α β
  | pair (x : α) (m : β) : SampleReturn α β
deriving Repr

/-- The samples component of a SampleReturn. -/
def sr_fst {α β : Type} : SampleReturn α β → α
  | .single x => x
  | .pair x _ => x

/-- The conditional-means component of a SampleReturn, when present. -/
def sr_means {α β : Type} : SampleReturn α β → Option β
  | .single _ => none
  | .pair _ m => some m

/-- Whether a SampleReturn is the pair form. -/
def sr_is_pair {α β : Type} : SampleReturn α β → Bool
  | .single _ => false
  | .pair _ _ => true

/-- The default of the noisy_encoding parameter of VAE.reconstruct, read off
its def line at src/pylearn2/models/vae/__init__.py line 186. -/
def reconstruct_noisy_encoding_default : Bool := false

/-- The default of the return_sample_means parameter of VAE.reconstruct, read
off its def line at src/pylearn2/models/vae/__init__.py line 186 (the
docstring instead says it defaults to False). -/
def reconstruct_return_sample_means_default : Bool := true

/-- The default of the return_sample_means parameter of VAE.sample, read off
its def line at src/pylearn2/models/vae/__init__.py line 155 (the docstring
instead says it defaults to False). -/
def sample_return_sample_means_default : Bool := true

/-- The collaborators that VAE.reconstruct calls, abstracted as functions.
Stochastic collaborator methods (sample_from_epsilon and
sample_from_p_x_given_z) additionally consume a value of the Noise type,
standing for the state of the random number generator consumed by that call;
two evaluations of the compiled graph under different seeds correspond to
applying these functions at different Noise values. -/
structure ReconVAE (batch nvis nhid : ℕ) (Phi Theta Noise : Type) where
  sample_from_epsilon : Noise → Tensor2 batch nhid
  encode_phi : Tensor2 batch nvis → Phi
  sample_from_q_z_given_x : Tensor2 batch nhid → Phi → Tensor2 batch nhid
  decode_theta : Tensor2 batch nhid → Theta
  sample_from_p_x_given_z : Theta → Noise → Tensor2 batch nvis
  means_from_theta : Theta → Tensor2 batch nvis

/-- VAE.reconstruct, src/pylearn2/models/vae/__init__.py lines 186-225,
translated line by line: sample epsilon; if not noisy_encoding, epsilon *= 0;
encode phi; z = sample_from_q_z_given_x(epsilon, phi); theta = decode_theta(z);
reconstructed_X = sample_from_p_x_given_z(theta); return the pair with the
conditional means if return_sample_means else the samples alone. -/
noncomputable def VAE_reconstruct {batch nvis nhid : ℕ} {Phi Theta Noise : Type}
    (M : ReconVAE batch nvis nhid Phi Theta Noise) (X : Tensor2 batch nvis)
    (noisy_encoding return_sample_means : Bool) (r1 r2 : Noise) :
    SampleReturn (Tensor2 batch nvis) (Tensor2 batch nvis) :=
  let epsilon0 := M.sample_from_epsilon r1
  let epsilon := if noisy_encoding then epsilon0 else fun b i => epsilon0 b i * 0
  let phi := M.encode_phi X
  let z := M.sample_from_q_z_given_x epsilon phi
  let theta := M.decode_theta z
  let reconstructed_X := M.sample_from_p_x_given_z theta r2
  if return_sample_means then
    .pair reconstructed_X (M.means_from_theta theta)
  else
    .single reconstructed_X

/-- The latent code z computed inside VAE.reconstruct. -/
noncomputable def vae_reconstruct_z {batch nvis nhid : ℕ}
    {Phi Theta Noise : Type} (M : ReconVAE batch nvis nhid Phi Theta Noise)
    (X : Tensor2 batch nvis) (noisy_encoding : Bool) (r1 : Noise) :
    Tensor2 batch nhid :=
  let epsilon0 := M.sample_from_epsilon r1
  let epsilon := if noisy_encoding then epsilon0 else fun b i => epsilon0 b i * 0
  M.sample_from_q_z_given_x epsilon (M.encode_phi X)

/-- Modelled from the spec: the DiagonalGaussianPosterior method
sample_from_q_z_given_x of pylearn2.models.vae.latent is not under src; the
spec says the latent code is drawn via reparameterized noise epsilon from
phi = (mean, log-std), i.e. z = mu + exp(log_sigma) * epsilon. -/
noncomputable def modelled_sample_from_q_z_given_x {b h : ℕ}
    (epsilon : Tensor2 b h) (phi : Tensor2 b h × Tensor2 b h) : Tensor2 b h :=
  fun i j => phi.1 i j + Real.exp (phi.2 i j) * epsilon i j

/-- Modelled from the spec: the Visible method sample_from_p_x_given_z of
pylearn2.models.vae.visible is not under src; the spec says reconstruct
"samples/means from the observation model", and for a diagonal-Gaussian
observation model the draw is x = mean + exp(log_sigma) * noise. -/
noncomputable def modelled_sample_from_p_x_given_z {b v : ℕ}
    (mean log_sigma noise : Tensor2 b v) : Tensor2 b v :=
  fun i j => mean i j + Real.exp (log_sigma i j) * noise i j

/-- A concrete one-dimensional VAE instance used to exercise
VAE.reconstruct: batch = nvis = nhid = 1, posterior parameters identically
zero, identity decoder, diagonal-Gaussian observation model with unit scale,
and a noise source that returns its seed value as the drawn noise. -/
noncomputable def recon_example :
    ReconVAE 1 1 1 (Tensor2 1 1 × Tensor2 1 1) (Tensor2 1 1) ℝ :=
  { sample_from_epsilon := fun r => fun _ _ => r
    encode_phi := fun _ => (fun _ _ => 0, fun _ _ => 0)
    sample_from_q_z_given_x := modelled_sample_from_q_z_given_x
    decode_theta := fun z => z
    sample_from_p_x_given_z := fun theta r =>
      modelled_sample_from_p_x_given_z theta (fun _ _ => 0) (fun _ _ => r)
    means_from_theta := fun theta => theta }

/-- The concrete input batch for the reconstruct experiments. -/
def recon_example_X : Tensor2 1 1 := fun _ _ => 0

/-- The collaborators that VAE.sample calls, abstracted as functions, with
Noise as in ReconVAE. -/
structure GenVAE (ns nhid nvis : ℕ) (Theta Noise : Type) where
  sample_from_p_z : Noise → Tensor2 ns nhid
  decode_theta : Tensor2 ns nhid → Theta
  sample_from_p_x_given_z : Theta → Noise → Tensor2 ns nvis
  means_from_theta : Theta → Tensor2 ns nvis

/-- VAE.sample, src/pylearn2/models/vae/__init__.py lines 155-184, translated
line by line: z = sample_from_p_z(num_samples); theta = decode_theta(z);
X = sample_from_p_x_given_z(num_samples, theta); return the pair with the
conditional means if return_sample_means else the samples alone. -/
noncomputable def VAE_sample {ns nhid nvis : ℕ} {Theta Noise : Type}
    (M : GenVAE ns nhid nvis Theta Noise) (r1 r2 : Noise)
    (return_sample_means : Bool) :
    SampleReturn (Tensor2 ns nvis) (Tensor2 ns nvis) :=
  let z := M.sample_from_p_z r1
  let theta := M.decode_theta z
  let X := M.sample_from_p_x_given_z theta r2
  if return_sample_means then
    .pair X (M.means_from_theta theta)
  else
    .single X

/-- The duplicate-name loop of VAE.__init__, src/pylearn2/models/vae/__init__.py
lines 91-97: names = []; for each parameter name, if it is not yet in names
append it, else raise.  The message preserves the spelling of the source. -/
def vae_check_param_names_loop : List String → List String → Except String Unit
  | _, [] => .ok ()
  | names, p :: rest =>
      if p ∈ names then
        .error ("no two paramameters must share the same name: " ++ p)
      else
        vae_check_param_names_loop (names ++ [p]) rest

/-- The duplicate-parameter-name check run by VAE.__init__ over the combined
encoder and decoder parameter name list. -/
def VAE_check_param_names (params : List String) : Except String Unit :=
  vae_check_param_names_loop [] params

/-- Whether an Except is a success. -/
def exOk {ε α : Type} : Except ε α → Bool
  | .ok _ => true
  | .error _ => false

/-- The slice of a VAE that Prior.set_vae reads: an identity, the state of the
numpy RNG, and the batch size. -/
structure VAERef where
  id : ℕ
  rng : ℕ
  batch_size : Option ℕ
deriving Repr, DecidableEq

/-- The mutable attributes of a Prior instance touched by get_vae/set_vae,
src/pylearn2/models/vae/prior.py lines 36-66.  An attribute not yet assigned
(Python hasattr false) is modelled as none. -/
structure PriorState where
  learn_prior : Bool
  vae : Option ℕ
  rng : Option ℕ
  theano_rng : Option ℕ
  batch_size : Option (Option ℕ)
deriving Repr, DecidableEq

/-- Prior.get_vae, src/pylearn2/models/vae/prior.py lines 40-48: the vae
attribute if assigned, else None. -/
def Prior_get_vae (p : PriorState) : Option ℕ := p.vae

/-- Prior.set_vae, src/pylearn2/models/vae/prior.py lines 50-66: raise if
get_vae() is not None, else assign vae, rng, theano_rng (seeded by a draw
below 2**30 from the VAE rng, modelled as v.rng % 2^30) and batch_size. -/
def Prior_set_vae (p : PriorState) (v : VAERef) : Except String PriorState :=
  if (Prior_get_vae p).isSome then
    .error "this Prior instance already belongs to another VAE"
  else
    .ok { p with
      vae := some v.id
      rng := some v.rng
      theano_rng := some (v.rng % 2 ^ 30)
      batch_size := some v.batch_size }

/-- The parameters of DiagonalGaussianPrior set by initialize_parameters,
src/pylearn2/models/vae/prior.py lines 132-140. -/
structure DiagonalGaussianPrior (nhid : ℕ) where
  prior_mu : Tensor1 nhid
  log_prior_sigma : Tensor1 nhid

/-- DiagonalGaussianPrior.log_p_z, src/pylearn2/models/vae/prior.py lines
153-158, translated line by line: -0.5 * (T.log(2 * pi * T.exp(2 *
log_prior_sigma)) + ((z - prior_mu) / T.exp(log_prior_sigma)) ** 2).sum(axis=2),
for z of shape (num_samples, batch, nhid). -/
noncomputable def DiagonalGaussianPrior.log_p_z {nhid ns batch : ℕ}
    (P : DiagonalGaussianPrior nhid) (z : Tensor3 ns batch nhid) :
    Tensor2 ns batch :=
  fun s b =>
    -0.5 * ∑ i,
      (Real.log (2 * Real.pi * Real.exp (2 * P.log_prior_sigma i)) +
        ((z s b i - P.prior_mu i) / Real.exp (P.log_prior_sigma i)) ^ 2)

/-- The standard per-dimension Gaussian log-density
-0.5 * (log(2 pi sigma^2) + ((x - mu)/sigma)^2), following the words of the
spec for comparison with DiagonalGaussianPrior.log_p_z. -/
noncomputable def gaussian_log_density (mu sigma x : ℝ) : ℝ :=
  -0.5 * (Real.log (2 * Real.pi * sigma ^ 2) + ((x - mu) / sigma) ^ 2)

/-- The spec's reading of the prior log-density: the per-dimension Gaussian
log-density with mu = prior_mu and sigma = exp(log_prior_sigma), summed over
the latent axis. -/
noncomputable def spec_log_p_z {nhid ns batch : ℕ}
    (P : DiagonalGaussianPrior nhid) (z : Tensor3 ns batch nhid) :
    Tensor2 ns batch :=
  fun s b =>
    ∑ i, gaussian_log_density (P.prior_mu i) (Real.exp (P.log_prior_sigma i))
      (z s b i)

end PylearnVAE

namespace PylearnVAE

theorem tensor_max_add_const {m : ℕ} (hm : 0 < m) (A : Tensor1 m) (c : ℝ) :
    tensor_max (fun i => A i + c) = tensor_max A + c := by
  unfold tensor_max
  rw [dif_pos hm, dif_pos hm]
  apply le_antisymm
  · apply Finset.sup'_le
    intro i _
    exact add_le_add_right (Finset.le_sup' A (Finset.mem_univ i)) c
  · have h2 : Finset.univ.sup' ⟨⟨0, hm⟩, Finset.mem_univ _⟩ A ≤
        Finset.univ.sup' ⟨⟨0, hm⟩, Finset.mem_univ _⟩ (fun i => A i + c) - c := by
      apply Finset.sup'_le
      intro i _
      rw [le_sub_iff_add_le]
      exact Finset.le_sup' (fun i => A i + c) (Finset.mem_univ i)
    linarith

theorem log_sum_exp_fin_one (A : Tensor1 1) : log_sum_exp A = A 0 := by
  have hmax : tensor_max A = A 0 := by
    unfold tensor_max
    rw [dif_pos Nat.zero_lt_one]
    exact Finset.sup'_eq_of_forall _ _ (fun b _ => by rw [Fin.eq_zero b])
  unfold log_sum_exp
  rw [hmax, Fin.sum_univ_one, sub_self, Real.exp_zero, Real.log_one, zero_add]

/-- Claim C4: the log_sum_exp helper subtracts the per-row maximum along the
reduced axis before exponentiating, and for every input tensor A and every
constant c, log_sum_exp(A + c) = log_sum_exp(A) + c: adding a constant to all
inputs along the reduced axis shifts the result by that constant. -/
theorem claim_C4_log_sum_exp_shift_invariant :
    (∀ (m : ℕ) (A : Tensor1 m),
      log_sum_exp A =
        Real.log (∑ s, Real.exp (A s - tensor_max A)) + tensor_max A) ∧
    (∀ (m : ℕ) (A : Tensor1 m) (c : ℝ), 0 < m →
      log_sum_exp (fun i => A i + c) = log_sum_exp A + c) := by
  constructor
  · intro m A
    rfl
  · intro m A c hm
    unfold log_sum_exp
    rw [tensor_max_add_const hm A c]
    have h1 : (∑ s, Real.exp ((fun i => A i + c) s - (tensor_max A + c))) =
        ∑ s, Real.exp (A s - tensor_max A) := by
      apply Finset.sum_congr rfl
      intro s _
      congr 1
      ring
    rw [h1]
    ring

/-- Witness for claim C4 at the concrete tensor (0, 1) and constant 3. -/
theorem claim_C4_witness :
    0 < 2 ∧
    log_sum_exp (fun i : Fin 2 => (i : ℝ) + 3) =
      log_sum_exp (fun i : Fin 2 => (i : ℝ)) + 3 :=
  ⟨by norm_num,
   claim_C4_log_sum_exp_shift_invariant.2 2 (fun i => (i : ℝ)) 3 (by norm_num)⟩

/-- Claim C3: VAE.log_likelihood_approximation(X, num_samples) equals the
log-sum-exp over the sample axis of log_p_z + log_p_x_z - log_q_z_x for the
drawn samples, minus log(num_samples); and with num_samples = 1 it equals
log_p_z + log_p_x_z - log_q_z_x of the single drawn sample, with no
log-sum-exp averaging effect. -/
theorem claim_C3_log_likelihood_approximation_lse :
    (∀ (ns batch nvis nhid ntheta : ℕ) (Phi : Type)
      (M : VAEColl ns batch nvis nhid ntheta Phi) (X : Tensor2 batch nvis)
      (b : Fin batch),
      log_likelihood_approximation M X b =
        log_sum_exp (fun s => vae_log_w M X s b) - Real.log (ns : ℝ)) ∧
    (∀ (batch nvis nhid ntheta : ℕ) (Phi : Type)
      (M : VAEColl 1 batch nvis nhid ntheta Phi) (X : Tensor2 batch nvis)
      (b : Fin batch),
      log_likelihood_approximation M X b = vae_log_w M X 0 b) := by
  constructor
  · intro ns batch nvis nhid ntheta Phi M X b
    rfl
  · intro batch nvis nhid ntheta Phi M X b
    have h1 : log_likelihood_approximation M X b =
        log_sum_exp (fun s => vae_log_w M X s b) - Real.log ((1 : ℕ) : ℝ) := rfl
    rw [h1, log_sum_exp_fin_one (fun s => vae_log_w M X s b)]
    rw [Nat.cast_one, Real.log_one, sub_zero]

/-- Claim C1: VAE.log_likelihood_lower_bound(X, num_samples) returns, per
example, the expectation component (the per-sample reconstruction
log-likelihood averaged over the sample axis) minus the analytic KL component;
however VAECriterion.get_monitoring_channels does not expose those two
components: it calls log_likelihood_lower_bound with the keyword argument
separate, which the method does not accept, so the monitoring-channel path
raises a TypeError instead of returning the KL and expectation values. -/
theorem claim_C1_lower_bound_decomposition_and_monitoring :
    (∀ (ns batch nvis nhid ntheta : ℕ) (Phi : Type)
      (M : VAEColl ns batch nvis nhid ntheta Phi) (X : Tensor2 batch nvis)
      (b : Fin batch),
      log_likelihood_lower_bound M X b =
        vae_expectation_component M X b - vae_kl_component M X b) ∧
    (∀ (ns batch nvis nhid ntheta : ℕ) (Phi : Type)
      (M : VAEColl ns batch nvis nhid ntheta Phi) (X : Tensor2 batch nvis),
      VAECriterion_get_monitoring_channels M X =
        .error ("TypeError: log_likelihood_lower_bound" ++
          "() got an unexpected keyword argument separate")) := by
  constructor
  · intro ns batch nvis nhid ntheta Phi M X b
    exact neg_add_eq_sub _ _
  · intro ns batch nvis nhid ntheta Phi M X
    rfl

/-- Claim C9: DiagonalGaussianPrior.log_p_z(z) equals the sum over the latent
axis of the per-dimension Gaussian log-density
-0.5*(log(2 pi sigma_i^2) + ((z_i - mu_i)/sigma_i)^2) with mu = prior_mu and
sigma = exp(log_prior_sigma). -/
theorem claim_C9_log_p_z_gaussian :
    ∀ (nhid ns batch : ℕ) (P : DiagonalGaussianPrior nhid)
      (z : Tensor3 ns batch nhid),
      DiagonalGaussianPrior.log_p_z P z = spec_log_p_z P z := by
  intro nhid ns batch P z
  funext s b
  unfold DiagonalGaussianPrior.log_p_z spec_log_p_z gaussian_log_density
  rw [Finset.mul_sum]
  apply Finset.sum_congr rfl
  intro i _
  have h : Real.exp (2 * P.log_prior_sigma i) =
      Real.exp (P.log_prior_sigma i) ^ 2 := by
    rw [two_mul, Real.exp_add, sq]
  rw [h]

/-- Claim C2: for every compatible diagonal-Gaussian prior/posterior pair,
DiagonalGaussianPriorPosteriorKL.kl_divergence equals the sum over latent
dimensions of prior_log_sigma - posterior_log_sigma +
0.5*(exp(2*posterior_log_sigma) + (posterior_mu - prior_mu)^2) /
exp(2*prior_log_sigma) - 0.5, and equals 0 when the posterior parameters
equal the prior parameters. -/
theorem claim_C2_diag_gaussian_kl_closed_form (batch d : ℕ)
    (pm pls : Tensor2 batch d) (qm qls : Tensor1 d) (pr po : PyObj)
    (h1 : py_isinstance pr DiagonalGaussianPrior_class = true)
    (h2 : py_isinstance po DiagonalGaussianPosterior_class = true) :
    kl_divergence (pm, pls) (qm, qls) pr po =
      .ok (fun b => ∑ i,
        (qls i - pls b i +
          0.5 * (Real.exp (2 * pls b i) + (pm b i - qm i) ^ 2) /
            Real.exp (2 * qls i) - 0.5)) ∧
    ((∀ b i, pm b i = qm i ∧ pls b i = qls i) →
      kl_divergence (pm, pls) (qm, qls) pr po = .ok (fun _ => 0)) := by
  have hval : KLIntegrator_validate_prior_posterior
      "DiagonalGaussianPriorPosteriorKL" (some DiagonalGaussianPrior_class)
      (some DiagonalGaussianPosterior_class) pr po = .ok () := by
    simp [KLIntegrator_validate_prior_posterior, h1, h2]
  have hok : kl_divergence (pm, pls) (qm, qls) pr po =
      .ok (fun b => ∑ i,
        (qls i - pls b i +
          0.5 * (Real.exp (2 * pls b i) + (pm b i - qm i) ^ 2) /
            Real.exp (2 * qls i) - 0.5)) := by
    unfold kl_divergence per_component_kl_divergence
    rw [hval]
  refine ⟨hok, fun heq => ?_⟩
  rw [hok]
  congr 1
  funext b
  apply Finset.sum_eq_zero
  intro i _
  obtain ⟨e1, e2⟩ := heq b i
  rw [e1, e2, sub_self, sub_self]
  have hne : Real.exp (2 * qls i) ≠ 0 := Real.exp_ne_zero _
  field_simp

/-- Witness for claim C2: a DiagonalGaussianPrior instance and a
DiagonalGaussianPosterior instance with all of mu and log-sigma zero (the
boundary case posterior == prior) give KL divergence 0. -/
theorem claim_C2_witness :
    py_isinstance ⟨DiagonalGaussianPrior_class⟩ DiagonalGaussianPrior_class =
      true ∧
    py_isinstance ⟨DiagonalGaussianPosterior_class⟩
      DiagonalGaussianPosterior_class = true ∧
    kl_divergence ((fun _ _ => (0 : ℝ)), (fun _ _ => (0 : ℝ)))
        ((fun (_ : Fin 1) => (0 : ℝ)), (fun (_ : Fin 1) => (0 : ℝ)))
        ⟨DiagonalGaussianPrior_class⟩ ⟨DiagonalGaussianPosterior_class⟩ =
      .ok (fun (_ : Fin 1) => 0) :=
  ⟨rfl, rfl,
   (claim_C2_diag_gaussian_kl_closed_form 1 1 (fun _ _ => 0) (fun _ _ => 0)
      (fun _ => 0) (fun _ => 0) ⟨DiagonalGaussianPrior_class⟩
      ⟨DiagonalGaussianPosterior_class⟩ rfl rfl).2
    (fun _ _ => ⟨rfl, rfl⟩)⟩

/-- Claim C6: calling the KL computation with an incompatible prior does fail
with a type-mismatch error, but the message does not name the expected class:
passing a DiagonalGaussianPosterior instance as the prior produces a message
that names the class of the incompatible object and the metaclass type
(the code renders str(self.prior_class.__class__) instead of
str(self.prior_class)), and the name of the expected class
DiagonalGaussianPrior does not occur in it. -/
theorem claim_C6_validate_error_names_metaclass :
    per_component_kl_divergence
        ((fun _ _ => (0 : ℝ)), (fun _ _ => (0 : ℝ)))
        ((fun (_ : Fin 1) => (0 : ℝ)), (fun (_ : Fin 1) => (0 : ℝ)))
        c6_prior_obj c6_posterior_obj =
      (.error c6_message : Except String (Tensor2 1 1)) ∧
    str_occurs "DiagonalGaussianPosterior" c6_message = true ∧
    str_occurs "DiagonalGaussianPrior" c6_message = false ∧
    str_occurs "type" c6_message = true := by
  refine ⟨rfl, by decide, by decide, by decide⟩

theorem vae_check_param_names_loop_ok (l : List String) :
    ∀ acc : List String,
      exOk (vae_check_param_names_loop acc l) = true ↔
        (l.Nodup ∧ ∀ x ∈ l, x ∉ acc) := by
  induction l with
  | nil =>
      intro acc
      simp [vae_check_param_names_loop, exOk]
  | cons p rest ih =>
      intro acc
      by_cases hp : p ∈ acc
      · rw [vae_check_param_names_loop, if_pos hp]
        simp only [exOk, List.nodup_cons]
        constructor
        · intro h
          exact absurd h (by simp)
        · rintro ⟨-, hall⟩
          exact absurd hp (hall p (List.mem_cons_self p rest))
      · rw [vae_check_param_names_loop, if_neg hp, ih (acc ++ [p]),
          List.nodup_cons]
        constructor
        · rintro ⟨hnd, hall⟩
          have hpr : p ∉ rest := by
            intro hpin
            have := hall p hpin
            simp at this
          refine ⟨⟨hpr, hnd⟩, ?_⟩
          intro x hx
          rcases List.mem_cons.mp hx with hxe | hxr
          · rw [hxe]; exact hp
          · intro hxa
            exact (hall x hxr) (List.mem_append_left _ hxa)
        · rintro ⟨⟨hpr, hnd⟩, hall⟩
          refine ⟨hnd, ?_⟩
          intro x hx hxa
          rcases List.mem_append.mp hxa with hxacc | hxp
          · exact (hall x (List.mem_cons_of_mem p hx)) hxacc
          · rw [List.mem_singleton.mp hxp] at hx
            exact hpr hx

/-- Claim C7: the duplicate-parameter-name check of VAE.__init__ raises an
exception exactly when the combined parameter name list contains two equal
names, and succeeds when all names are distinct. -/
theorem claim_C7_duplicate_param_names :
    ∀ params : List String,
      exOk (VAE_check_param_names params) = true ↔ params.Nodup := by
  intro params
  rw [VAE_check_param_names, vae_check_param_names_loop_ok params []]
  simp

/-- Claim C8: Prior.set_vae fails with the already-bound error exactly when
get_vae() is not None, and after a successful set_vae the instance is bound to
exactly the given VAE. -/
theorem claim_C8_set_vae_binding :
    ∀ (p : PriorState) (v : VAERef),
      (Prior_set_vae p v =
          .error "this Prior instance already belongs to another VAE" ↔
        (Prior_get_vae p).isSome = true) ∧
      (Prior_get_vae p = none →
        (Prior_set_vae p v).toOption.map Prior_get_vae = some (some v.id)) := by
  intro p v
  constructor
  · by_cases h : (Prior_get_vae p).isSome = true
    · rw [Prior_set_vae, if_pos h]
      simp [h]
    · rw [Prior_set_vae, if_neg h]
      simp [h]
  · intro h
    rw [Prior_set_vae, if_neg (by simp [Prior_get_vae] at h ⊢; exact h)]
    simp [Except.toOption, Prior_get_vae]

/-- Witness for claim C8: an unbound Prior instance accepts a VAE with id 7
and is afterwards bound to it. -/
theorem claim_C8_witness :
    (Prior_set_vae
        { learn_prior := true, vae := none, rng := none, theano_rng := none,
          batch_size := none }
        { id := 7, rng := 12345, batch_size := some 100 } =
        .error "this Prior instance already belongs to another VAE" ↔
      (Prior_get_vae
        { learn_prior := true, vae := none, rng := none, theano_rng := none,
          batch_size := none }).isSome = true) ∧
    (Prior_set_vae
        { learn_prior := true, vae := none, rng := none, theano_rng := none,
          batch_size := none }
        { id := 7, rng := 12345, batch_size := some 100 }).toOption.map
      Prior_get_vae = some (some 7) :=
  ⟨(claim_C8_set_vae_binding
      { learn_prior := true, vae := none, rng := none, theano_rng := none,
        batch_size := none }
      { id := 7, rng := 12345, batch_size := some 100 }).1,
   (claim_C8_set_vae_binding
      { learn_prior := true, vae := none, rng := none, theano_rng := none,
        batch_size := none }
      { id := 7, rng := 12345, batch_size := some 100 }).2 rfl⟩

/-- Counterexample to claim C5: with noisy_encoding=False and all defaults,
two calls of VAE.reconstruct on the same input that consume different
observation-model noise (different random seeds across repeated calls) return
different outputs, because reconstruct still draws a sample from p(x given z). -/
theorem claim_C5_counterexample :
    VAE_reconstruct recon_example recon_example_X
        reconstruct_noisy_encoding_default
        reconstruct_return_sample_means_default 0 0 ≠
      VAE_reconstruct recon_example recon_example_X
        reconstruct_noisy_encoding_default
        reconstruct_return_sample_means_default 0 1 := by
  intro h
  have h2 := congrArg (fun s : SampleReturn (Tensor2 1 1) (Tensor2 1 1) => sr_fst s 0 0) h
  simp [VAE_reconstruct, recon_example, recon_example_X,
    reconstruct_noisy_encoding_default, reconstruct_return_sample_means_default,
    modelled_sample_from_q_z_given_x, modelled_sample_from_p_x_given_z,
    sr_fst, Real.exp_zero] at h2

/-- Claim C5 amended: with noisy_encoding=False the encoder path of
VAE.reconstruct is deterministic: the latent code z and the returned
conditional means are identical across calls regardless of the noise drawn,
but the sampled reconstruction itself still varies (see the counterexample);
with noisy_encoding=True the output varies across calls with different
random seeds. -/
theorem claim_C5_reconstruct_amended :
    (∀ (batch nvis nhid : ℕ) (Phi Theta Noise : Type)
      (M : ReconVAE batch nvis nhid Phi Theta Noise) (X : Tensor2 batch nvis)
      (r1 r1' r2 r2' : Noise),
      vae_reconstruct_z M X false r1 = vae_reconstruct_z M X false r1' ∧
      sr_means (VAE_reconstruct M X false
          reconstruct_return_sample_means_default r1 r2) =
        sr_means (VAE_reconstruct M X false
          reconstruct_return_sample_means_default r1' r2')) ∧
    VAE_reconstruct recon_example recon_example_X true
        reconstruct_return_sample_means_default 0 0 ≠
      VAE_reconstruct recon_example recon_example_X true
        reconstruct_return_sample_means_default 1 0 := by
  constructor
  · intro batch nvis nhid Phi Theta Noise M X r1 r1' r2 r2'
    have heps : ∀ r : Noise,
        (fun b i => M.sample_from_epsilon r b i * 0) =
          (fun _ _ => (0 : ℝ)) := by
      intro r
      funext b i
      exact mul_zero _
    have hz : ∀ r : Noise, vae_reconstruct_z M X false r =
        M.sample_from_q_z_given_x (fun _ _ => 0) (M.encode_phi X) := by
      intro r
      show M.sample_from_q_z_given_x
          (if false = true then M.sample_from_epsilon r
            else fun b i => M.sample_from_epsilon r b i * 0)
          (M.encode_phi X) =
        M.sample_from_q_z_given_x (fun _ _ => 0) (M.encode_phi X)
      rw [if_neg (by simp), heps r]
    have hm : ∀ ra rb : Noise,
        sr_means (VAE_reconstruct M X false
            reconstruct_return_sample_means_default ra rb) =
          some (M.means_from_theta (M.decode_theta
            (M.sample_from_q_z_given_x (fun _ _ => 0) (M.encode_phi X)))) := by
      intro ra rb
      show sr_means (SampleReturn.pair
          (M.sample_from_p_x_given_z (M.decode_theta
            (M.sample_from_q_z_given_x
              (if false = true then M.sample_from_epsilon ra
                else fun b i => M.sample_from_epsilon ra b i * 0)
              (M.encode_phi X))) rb)
          (M.means_from_theta (M.decode_theta
            (M.sample_from_q_z_given_x
              (if false = true then M.sample_from_epsilon ra
                else fun b i => M.sample_from_epsilon ra b i * 0)
              (M.encode_phi X))))) = _
      rw [if_neg (by simp), heps ra]
      rfl
    exact ⟨by rw [hz r1, hz r1'], by rw [hm r1 r2, hm r1' r2']⟩
  · intro h
    have h2 := congrArg (fun s : SampleReturn (Tensor2 1 1) (Tensor2 1 1) => sr_fst s 0 0) h
    simp [VAE_reconstruct, recon_example, recon_example_X,
      reconstruct_return_sample_means_default,
      modelled_sample_from_q_z_given_x, modelled_sample_from_p_x_given_z,
      sr_fst, Real.exp_zero] at h2

/-- Claim C10: with default arguments VAE.sample and VAE.reconstruct return
the pair (samples, conditional means from the observation model), because
return_sample_means defaults to True in both signatures; the samples alone
are returned exactly when return_sample_means=False is passed explicitly. -/
theorem claim_C10_return_sample_means_default :
    (sample_return_sample_means_default = true ∧
      reconstruct_return_sample_means_default = true) ∧
    (∀ (ns nhid nvis : ℕ) (Theta Noise : Type)
      (M : GenVAE ns nhid nvis Theta Noise) (r1 r2 : Noise),
      VAE_sample M r1 r2 sample_return_sample_means_default =
        .pair (M.sample_from_p_x_given_z
            (M.decode_theta (M.sample_from_p_z r1)) r2)
          (M.means_from_theta (M.decode_theta (M.sample_from_p_z r1))) ∧
      VAE_sample M r1 r2 false =
        .single (M.sample_from_p_x_given_z
          (M.decode_theta (M.sample_from_p_z r1)) r2)) ∧
    (∀ (batch nvis nhid : ℕ) (Phi Theta Noise : Type)
      (M : ReconVAE batch nvis nhid Phi Theta Noise) (X : Tensor2 batch nvis)
      (r1 r2 : Noise),
      VAE_reconstruct M X reconstruct_noisy_encoding_default
          reconstruct_return_sample_means_default r1 r2 =
        .pair (M.sample_from_p_x_given_z (M.decode_theta
            (M.sample_from_q_z_given_x
              (fun b i => M.sample_from_epsilon r1 b i * 0)
              (M.encode_phi X))) r2)
          (M.means_from_theta (M.decode_theta
            (M.sample_from_q_z_given_x
              (fun b i => M.sample_from_epsilon r1 b i * 0)
              (M.encode_phi X)))) ∧
      VAE_reconstruct M X reconstruct_noisy_encoding_default false r1 r2 =
        .single (M.sample_from_p_x_given_z (M.decode_theta
          (M.sample_from_q_z_given_x
            (fun b i => M.sample_from_epsilon r1 b i * 0)
            (M.encode_phi X))) r2)) := by
  refine ⟨⟨rfl, rfl⟩, ?_, ?_⟩
  · intro ns nhid nvis Theta Noise M r1 r2
    exact ⟨rfl, rfl⟩
  · intro batch nvis nhid Phi Theta Noise M X r1 r2
    exact ⟨rfl, rfl⟩

end PylearnVAE
